import Mathlib

/-!
Verification of the match-recording and statistics-aggregation core of the
Commander Tracker dashboard (`src/app.py`).

The embedding below translates the Python/pandas source into Lean:

* the Player / Deck / HistoryRow snapshots become structures over `Nat`
  identifiers and `String` fields;
* the form-submit block (validation, match insert, name resolution,
  participant construction, batch insert) becomes the pure function
  `recordMatch`, with the store modelled as an explicit `Store` value and
  the fallibility of the participants batch insert modelled by a boolean
  parameter;
* pandas lookups of the form `df[df[col] == x][id].values[0]` become
  `(filter …).head?` — the first matching record, failing (an `IndexError`
  caught by the surrounding `try`) when no record matches;
* the Dashboard aggregations (year filter, win-rate ranking, colour
  frequency) become pure functions over a `List HistoryRow`; pandas
  `sort_values` is modelled with `List.insertionSort` (the source's sort is
  a deterministic library sort; only tie order could differ, and no theorem
  below depends on tie order).
-/

namespace MtgStats

/-- A row of the `players` table: opaque identifier plus unique display name. -/
structure Player where
  player_id : Nat
  name : String
  deriving DecidableEq, Repr

/-- A row of the `decks` table as fetched from the store. -/
structure Deck where
  deck_id : Nat
  deck_name : String
  player_id : Nat
  color_identity : String
  deriving DecidableEq, Repr

/-- A deck enriched with `owner_name` and `display_name` columns, as built in
`app.py` lines 59-64 from the player snapshot. -/
structure EDeck where
  deck_id : Nat
  deck_name : String
  player_id : Nat
  color_identity : String
  owner_name : String
  display_name : String
  deriving DecidableEq, Repr

/-- A row of the denormalised `view_full_history` view. -/
structure HistoryRow where
  match_id : Nat
  player_name : String
  deck_name : String
  color_identity : String
  date : String
  is_winner : Bool
  turn_eliminated : Nat
  eliminated_by : String
  deriving DecidableEq, Repr

/-- One of the four seat entries of the recording form
(`participantes.append({...})`, `app.py` lines 198-203). -/
structure Entry where
  nome : String
  deck_display : String
  venceu : Bool
  turno : Nat
  deriving DecidableEq, Repr

/-- A row of the `matches` table (`dados_partida` plus the store-assigned id). -/
structure MatchRow where
  match_id : Nat
  date : String
  notes : String
  deriving DecidableEq, Repr

/-- A row of the `match_participants` table (`dados_participantes` payload,
`app.py` lines 235-242). -/
structure ParticipantRow where
  match_id : Nat
  player_id : Nat
  deck_id : Nat
  is_winner : Bool
  turn_eliminated : Nat
  rank : Nat
  deriving DecidableEq, Repr

/-- The relational store's mutable state: the two tables written by the form,
plus the auto-increment counter assigning `match_id`s. -/
structure Store where
  nextMatchId : Nat
  matchRows : List MatchRow
  participants : List ParticipantRow
  deriving DecidableEq, Repr

/-- Errors surfaced by the submit block: the inline "select at least 2
players" message (`app.py` line 212), or the `except` branch catching any
exception raised inside the `try` (a failed lookup's `IndexError` or a failed
store insert, `app.py` lines 251-252). -/
inductive RecErr where
  | insufficientParticipants
  | caughtException
  deriving DecidableEq, Repr

/-- Lexicographic comparison of character lists by code point, the order a
pandas `sort_values` applies to a string column. -/
def charsLe : List Char → List Char → Bool
  | [], _ => true
  | _ :: _, [] => false
  | a :: as, b :: bs => if a = b then charsLe as bs else decide (a < b)

/-- Lexicographic comparison of strings by code point. -/
def strLe (a b : String) : Bool :=
  charsLe a.data b.data

/-- The `player_id -> name` map of `app.py` line 61 (`dict(zip(...))` keeps the
last binding for a duplicated key; a missing key renders as the string "nan"
after `.astype(str)` on line 63). -/
def playerMap (players : List Player) (pid : Nat) : String :=
  match players.reverse.find? (fun pl => pl.player_id == pid) with
  | some pl => pl.name
  | none => "nan"

/-- Deck enrichment (`app.py` lines 59-64): add `owner_name` and
`display_name = deck_name + " (" + owner_name + ")"`, then sort the snapshot by
`display_name`. -/
def enrichDecks (players : List Player) (decks : List Deck) : List EDeck :=
  List.insertionSort (fun a b : EDeck => strLe a.display_name b.display_name = true)
    (decks.map (fun d =>
      { deck_id := d.deck_id
        deck_name := d.deck_name
        player_id := d.player_id
        color_identity := d.color_identity
        owner_name := playerMap players d.player_id
        display_name := d.deck_name ++ " (" ++ playerMap players d.player_id ++ ")" }))

/-- The validation filter (`app.py` line 209): keep entries whose player and
deck selections are both filled. -/
def validEntries (participantes : List Entry) : List Entry :=
  participantes.filter (fun p => p.nome != "" && p.deck_display != "")

/-- The player lookup `df_players[df_players['name'] == nome]['player_id'].values[0]`
(`app.py` line 232): the first matching record, `none` when `.values[0]`
raises `IndexError` because no record matches. -/
def resolvePlayerId (players : List Player) (nome : String) : Option Nat :=
  ((players.filter (fun pl => pl.name == nome)).head?).map (fun pl => pl.player_id)

/-- The deck lookup `df_decks[df_decks['display_name'] == d]['deck_id'].values[0]`
(`app.py` line 233): the first matching record of the enriched snapshot,
`none` when no record matches. -/
def resolveDeckId (edecks : List EDeck) (display : String) : Option Nat :=
  ((edecks.filter (fun d => d.display_name == display)).head?).map (fun d => d.deck_id)

/-- One element of `dados_participantes` (`app.py` lines 235-242). -/
def mkRow (mid pid did : Nat) (e : Entry) : ParticipantRow :=
  { match_id := mid
    player_id := pid
    deck_id := did
    is_winner := e.venceu
    turn_eliminated := e.turno
    rank := if e.venceu then 1 else 0 }

/-- The participant-construction loop (`app.py` lines 227-242): resolve each
valid entry's names to identifiers and build its payload row; `none` when any
lookup raises (the exception aborts the whole `try` block before the batch
insert). -/
def buildParticipants (players : List Player) (edecks : List EDeck) (mid : Nat) :
    List Entry → Option (List ParticipantRow)
  | [] => some []
  | e :: es =>
    match resolvePlayerId players e.nome, resolveDeckId edecks e.deck_display with
    | some pid, some did =>
      match buildParticipants players edecks mid es with
      | some rest => some (mkRow mid pid did e :: rest)
      | none => none
    | _, _ => none

/-- The match insert (`app.py` line 221): the store assigns the next
auto-increment id and appends the row. -/
def insertMatch (dateStr notes : String) (s : Store) : Nat × Store :=
  (s.nextMatchId,
   { s with
      nextMatchId := s.nextMatchId + 1
      matchRows := s.matchRows ++ [⟨s.nextMatchId, dateStr, notes⟩] })

/-- The participants batch insert (`app.py` line 245). -/
def insertParticipants (rows : List ParticipantRow) (s : Store) : Store :=
  { s with participants := s.participants ++ rows }

/-- The whole submit block (`app.py` lines 207-252) as a function from the
form data, the cached snapshots and the store state to a result and the store
state after the call.  `partInsertOk` models whether the participants batch
insert succeeds or raises (external store behaviour); the match insert's own
failure mode aborts before any write and is not needed by the claims. -/
def recordMatch (dateStr notes : String) (participantes : List Entry)
    (players : List Player) (decks : List Deck) (partInsertOk : Bool)
    (s : Store) : Except RecErr Nat × Store :=
  let validos := validEntries participantes
  if validos.length < 2 then
    (Except.error RecErr.insufficientParticipants, s)
  else
    let ins := insertMatch dateStr notes s
    match buildParticipants players (enrichDecks players decks) ins.1 validos with
    | none => (Except.error RecErr.caughtException, ins.2)
    | some rows =>
      if partInsertOk then
        (Except.ok ins.1, insertParticipants rows ins.2)
      else
        (Except.error RecErr.caughtException, ins.2)

/-- Split a character list at every dash, the shape of an ISO `YYYY-MM-DD`
date string. -/
def splitOnDash : List Char → List (List Char)
  | [] => [[]]
  | c :: cs =>
    if c = '-' then [] :: splitOnDash cs
    else
      match splitOnDash cs with
      | [] => [[c]]
      | g :: gs => (c :: g) :: gs

/-- Read a decimal digit list as a number. -/
def digitsToNat (cs : List Char) : Nat :=
  cs.foldl (fun n c => 10 * n + (c.toNat - 48)) 0

/-- The calendar year extracted by `pd.to_datetime(...).dt.year` from one date
string: models the library parser on the ISO `YYYY-MM-DD` strings the store
returns, giving `none` exactly where `pd.to_datetime` raises on an
unparseable string. -/
def parseYear (s : String) : Option Nat :=
  match splitOnDash s.data with
  | [y, m, d] =>
    if y.length == 4 && y.all Char.isDigit &&
        decide (0 < m.length) && decide (m.length ≤ 2) && m.all Char.isDigit &&
        decide (0 < d.length) && decide (d.length ≤ 2) && d.all Char.isDigit then
      some (digitsToNat y)
    else none
  | _ => none

/-- The dashboard's period selector: "Todos" or one year. -/
inductive Period where
  | all
  | year (y : Nat)
  deriving DecidableEq, Repr

/-- The year filter (`app.py` lines 88-90).  `df_filtered = df_history.copy()`
then, for a selected year,
`df_filtered[pd.to_datetime(df_filtered['date']).dt.year == ano_sel]`:
`pd.to_datetime` raises on the first unparseable date, which aborts the whole
dashboard render — modelled as `none`.  Under "Todos" no parsing happens and
every row is retained. -/
def filterByYear (rows : List HistoryRow) (p : Period) : Option (List HistoryRow) :=
  match p with
  | Period.all => some rows
  | Period.year y =>
    if rows.all (fun r => (parseYear r.date).isSome) then
      some (rows.filter (fun r => parseYear r.date == some y))
    else
      none

/-- One line of the `stats` frame of `app.py` lines 111-117: a player with the
aggregates `jogos`, `vitorias` and the derived `win_rate` column. -/
structure PlayerStat where
  player_name : String
  jogos : Nat
  vitorias : Nat
  win_rate : Rat
  deriving DecidableEq, Repr

/-- The `jogos=('match_id', 'nunique')` aggregate: number of distinct
`match_id` values among the rows of one player. -/
def gamesOf (rows : List HistoryRow) (nome : String) : Nat :=
  (((rows.filter (fun r => r.player_name == nome)).map (fun r => r.match_id)).dedup).length

/-- The `vitorias=('is_winner', 'sum')` aggregate: summing the boolean column
counts the rows where `is_winner` is true. -/
def winsOf (rows : List HistoryRow) (nome : String) : Nat :=
  ((rows.filter (fun r => r.player_name == nome)).filter (fun r => r.is_winner)).length

/-- One aggregated group of the win-rate frame, with the
`win_rate = vitorias / jogos * 100` column of `app.py` line 117 (float
arithmetic modelled exactly over `Rat`; the source values are small integer
ratios, represented exactly by binary floats as well). -/
def statFor (rows : List HistoryRow) (nome : String) : PlayerStat :=
  { player_name := nome
    jogos := gamesOf rows nome
    vitorias := winsOf rows nome
    win_rate := (winsOf rows nome : Rat) / (gamesOf rows nome : Rat) * 100 }

/-- The comparison underlying `sort_values('win_rate', ascending=False)`. -/
def wrGe (a b : PlayerStat) : Prop :=
  b.win_rate ≤ a.win_rate

instance : DecidableRel wrGe :=
  fun a b => inferInstanceAs (Decidable (b.win_rate ≤ a.win_rate))

instance : IsTotal PlayerStat wrGe :=
  ⟨fun a b => le_total b.win_rate a.win_rate⟩

instance : IsTrans PlayerStat wrGe :=
  ⟨fun _ _ _ hab hbc => le_trans hbc hab⟩

/-- The distinct group keys of `groupby('player_name')`, in the sorted key
order pandas produces. -/
def groupKeys (rows : List HistoryRow) : List String :=
  List.insertionSort (fun a b : String => strLe a b = true)
    ((rows.map (fun r => r.player_name)).dedup)

/-- The win-rate ranking of `app.py` lines 111-118: group by player, aggregate
games and wins, drop groups with fewer than 5 games, add the win-rate column,
sort by it descending and keep the top 10 (`.head(10)`). -/
def winRateRanking (rows : List HistoryRow) : List PlayerStat :=
  let stats := (groupKeys rows).map (statFor rows)
  let kept := stats.filter (fun st => 5 ≤ st.jogos)
  (List.insertionSort wrGe kept).take 10

/-- The column normalisation `.replace('', 'Incolor')` of `app.py` line 128:
an empty colour identity becomes the sentinel colourless category. -/
def normColor (ci : String) : String :=
  if ci == "" then "Incolor" else ci

/-- The full `value_counts()` table of `app.py` line 128 before `.head(10)`:
every category paired with its row count, sorted by count descending. -/
def colorCounts (rows : List HistoryRow) : List (String × Nat) :=
  let cats := rows.map (fun r => normColor r.color_identity)
  List.insertionSort (fun a b : String × Nat => b.2 ≤ a.2)
    (cats.dedup.map (fun c => (c, cats.count c)))

/-- The rendered colour-frequency table: the top 10 categories by count. -/
def colorFrequency (rows : List HistoryRow) : List (String × Nat) :=
  (colorCounts rows).take 10

/-! Concrete snapshots and form inputs used to evaluate the definitions. -/

/-- A player snapshot record. -/
def ana : Player := ⟨1, "Ana"⟩

/-- A second player snapshot record. -/
def bo : Player := ⟨2, "Bo"⟩

/-- A deck named "X" owned by Ana. -/
def dX1 : Deck := ⟨11, "X", 1, "WU"⟩

/-- A second deck also named "X" and also owned by Ana: its display name
collides with `dX1`'s. -/
def dX2 : Deck := ⟨12, "X", 1, "BR"⟩

/-- A deck named "Y" owned by Bo. -/
def dY : Deck := ⟨13, "Y", 2, "G"⟩

/-- An empty store whose next auto-increment match id is 1. -/
def s0 : Store := ⟨1, [], []⟩

/-- A form submission whose first deck selection "X (Ana)" is ambiguous
against the snapshot `[dX1, dX2, dY]` (two records carry that display name). -/
def entsAmb : List Entry := [⟨"Ana", "X (Ana)", true, 0⟩, ⟨"Bo", "Y (Bo)", false, 5⟩]

/-- A form submission pairing each player with the other player's deck:
Ana with Bo's deck "Y (Bo)" and Bo with Ana's deck "X (Ana)". -/
def entsCross : List Entry := [⟨"Ana", "Y (Bo)", true, 0⟩, ⟨"Bo", "X (Ana)", false, 3⟩]

/-- A form submission naming the same player and deck in two seats. -/
def entsDup : List Entry := [⟨"Ana", "X (Ana)", true, 0⟩, ⟨"Ana", "X (Ana)", false, 2⟩]

/-- A form submission with only one fully filled seat. -/
def entsOne : List Entry :=
  [⟨"Ana", "X (Ana)", true, 0⟩, ⟨"Bo", "", false, 0⟩, ⟨"", "", false, 0⟩, ⟨"", "", false, 0⟩]

/-- A form submission naming a player absent from the snapshot. -/
def entsZero : List Entry := [⟨"Zed", "X (Ana)", true, 0⟩, ⟨"Ana", "X (Ana)", false, 0⟩]

/-- A history in which Ana occupies two seats of each of five matches and wins
with both — reachable data, since `recordMatch` accepts duplicate seats. -/
def doubledRows : List HistoryRow :=
  (List.range 5).flatMap (fun i =>
    [⟨i + 1, "Ana", "X", "WU", "2026-01-05", true, 0, ""⟩,
     ⟨i + 1, "Ana", "Z", "B", "2026-01-05", true, 0, ""⟩])

/-- The worked scenario of the specification: five two-player matches between
Ana and Bo, of which Ana wins three. -/
def scenarioRows : List HistoryRow :=
  [⟨1, "Ana", "X", "WU", "2026-01-05", true, 0, ""⟩,
   ⟨1, "Bo", "Y", "G", "2026-01-05", false, 4, "Ana"⟩,
   ⟨2, "Ana", "X", "WU", "2026-01-12", true, 0, ""⟩,
   ⟨2, "Bo", "Y", "G", "2026-01-12", false, 6, "Ana"⟩,
   ⟨3, "Ana", "X", "WU", "2026-02-02", true, 0, ""⟩,
   ⟨3, "Bo", "Y", "G", "2026-02-02", false, 7, "Ana"⟩,
   ⟨4, "Ana", "X", "WU", "2026-02-09", false, 9, "Bo"⟩,
   ⟨4, "Bo", "Y", "G", "2026-02-09", true, 0, ""⟩,
   ⟨5, "Ana", "X", "WU", "2026-03-01", false, 8, "Bo"⟩,
   ⟨5, "Bo", "Y", "G", "2026-03-01", true, 0, ""⟩]

/-- A history row with a well-formed ISO date in 2026. -/
def rowGood : HistoryRow := ⟨1, "Ana", "X", "WU", "2026-01-05", true, 0, ""⟩

/-- A history row whose date string cannot be parsed. -/
def rowBad : HistoryRow := ⟨2, "Bo", "Y", "G", "garbage", false, 0, ""⟩

/-! Helper lemmas about participant construction and `recordMatch`. -/

/-- When every lookup of a valid entry has at least one matching record, the
construction loop completes and each row is built from the first matching
player record and the first matching deck record. -/
theorem buildParticipants_eq_some (players : List Player) (edecks : List EDeck) (mid : Nat)
    (es : List Entry)
    (h : ∀ e ∈ es, (resolvePlayerId players e.nome).isSome ∧
      (resolveDeckId edecks e.deck_display).isSome) :
    buildParticipants players edecks mid es =
      some (es.map (fun e =>
        mkRow mid ((resolvePlayerId players e.nome).getD 0)
          ((resolveDeckId edecks e.deck_display).getD 0) e)) := by
  induction es with
  | nil => rfl
  | cons e es ih =>
    obtain ⟨hp, hd⟩ := h e (List.mem_cons_self e es)
    obtain ⟨pid, hp'⟩ := Option.isSome_iff_exists.mp hp
    obtain ⟨did, hd'⟩ := Option.isSome_iff_exists.mp hd
    have hrest := ih (fun e' he' => h e' (List.mem_cons_of_mem e he'))
    simp [buildParticipants, hp', hd', hrest]

/-- When some valid entry's lookup has zero matching records, the construction
loop raises and produces nothing. -/
theorem buildParticipants_eq_none (players : List Player) (edecks : List EDeck) (mid : Nat)
    (es : List Entry)
    (h : ∃ e ∈ es, resolvePlayerId players e.nome = none ∨
      resolveDeckId edecks e.deck_display = none) :
    buildParticipants players edecks mid es = none := by
  induction es with
  | nil => simp at h
  | cons e es ih =>
    obtain ⟨e', he', hor⟩ := h
    rcases List.mem_cons.mp he' with rfl | htail
    · rcases hor with hp | hd
      · simp [buildParticipants, hp]
      · cases hp : resolvePlayerId players e'.nome <;> simp [buildParticipants, hp, hd]
    · have hrest := ih ⟨e', htail, hor⟩
      cases hp : resolvePlayerId players e.nome with
      | none => simp [buildParticipants, hp]
      | some pid =>
        cases hd : resolveDeckId edecks e.deck_display with
        | none => simp [buildParticipants, hp, hd]
        | some did => simp [buildParticipants, hp, hd, hrest]

/-- Inversion: a completed construction loop means every lookup had at least
one match, and the rows are exactly the first-match-resolved payloads. -/
theorem buildParticipants_inv (players : List Player) (edecks : List EDeck) (mid : Nat)
    (es : List Entry) (rows : List ParticipantRow)
    (h : buildParticipants players edecks mid es = some rows) :
    (∀ e ∈ es, (resolvePlayerId players e.nome).isSome ∧
      (resolveDeckId edecks e.deck_display).isSome) ∧
    rows = es.map (fun e =>
      mkRow mid ((resolvePlayerId players e.nome).getD 0)
        ((resolveDeckId edecks e.deck_display).getD 0) e) := by
  induction es generalizing rows with
  | nil =>
    refine ⟨by simp, ?_⟩
    simpa [buildParticipants, eq_comm] using h
  | cons e es ih =>
    cases hp : resolvePlayerId players e.nome with
    | none => simp [buildParticipants, hp] at h
    | some pid =>
      cases hd : resolveDeckId edecks e.deck_display with
      | none => simp [buildParticipants, hp, hd] at h
      | some did =>
        cases hb : buildParticipants players edecks mid es with
        | none => simp [buildParticipants, hp, hd, hb] at h
        | some rest =>
          obtain ⟨hall, hrest⟩ := ih rest hb
          have hrows : rows = mkRow mid pid did e :: rest := by
            have h' := h
            simp only [buildParticipants, hp, hd, hb] at h'
            exact (Option.some_inj.mp h').symm
          refine ⟨?_, ?_⟩
          · intro e' he'
            rcases List.mem_cons.mp he' with rfl | htail
            · exact ⟨by simp [hp], by simp [hd]⟩
            · exact hall e' htail
          · simp [hrows, hrest, hp, hd]

/-- Unfolding of `recordMatch` when validation passes and the construction
loop completes. -/
theorem recordMatch_eq_of_build_some (dateStr notes : String) (participantes : List Entry)
    (players : List Player) (decks : List Deck) (ok : Bool) (s : Store)
    (rows : List ParticipantRow)
    (h2 : 2 ≤ (validEntries participantes).length)
    (hb : buildParticipants players (enrichDecks players decks) s.nextMatchId
      (validEntries participantes) = some rows) :
    recordMatch dateStr notes participantes players decks ok s =
      (if ok then (Except.ok s.nextMatchId, insertParticipants rows (insertMatch dateStr notes s).2)
       else (Except.error RecErr.caughtException, (insertMatch dateStr notes s).2)) := by
  have h2' : ¬ (validEntries participantes).length < 2 := not_lt.mpr h2
  simp only [recordMatch, h2', if_false]
  have : (insertMatch dateStr notes s).1 = s.nextMatchId := rfl
  rw [this, hb]

/-- Unfolding of `recordMatch` when validation passes but some lookup raises:
the call errors with the Match row already written. -/
theorem recordMatch_eq_of_build_none (dateStr notes : String) (participantes : List Entry)
    (players : List Player) (decks : List Deck) (ok : Bool) (s : Store)
    (h2 : 2 ≤ (validEntries participantes).length)
    (hb : buildParticipants players (enrichDecks players decks) s.nextMatchId
      (validEntries participantes) = none) :
    recordMatch dateStr notes participantes players decks ok s =
      (Except.error RecErr.caughtException, (insertMatch dateStr notes s).2) := by
  have h2' : ¬ (validEntries participantes).length < 2 := not_lt.mpr h2
  simp only [recordMatch, h2', if_false]
  have : (insertMatch dateStr notes s).1 = s.nextMatchId := rfl
  rw [this, hb]

/-- Unfolding of the year filter at a specific year. -/
theorem filterByYear_year (rows : List HistoryRow) (y : Nat) :
    filterByYear rows (Period.year y) =
      (if rows.all (fun r => (parseYear r.date).isSome) then
        some (rows.filter (fun r => parseYear r.date == some y))
      else none) :=
  rfl

/-- In a history where no player occupies two seats of the same match — the
`(match_id, player_name)` pairs are pairwise distinct — a player's winning
rows cannot outnumber that player's distinct matches. -/
theorem winsOf_le_gamesOf (rows : List HistoryRow) (nome : String)
    (hnd : (rows.map (fun r => (r.match_id, r.player_name))).Nodup) :
    winsOf rows nome ≤ gamesOf rows nome := by
  have h1 : winsOf rows nome ≤ (rows.filter (fun r => r.player_name == nome)).length :=
    List.length_filter_le _ _
  have hsub : ((rows.filter (fun r => r.player_name == nome)).map
      (fun r => (r.match_id, r.player_name))).Sublist
      (rows.map (fun r => (r.match_id, r.player_name))) :=
    List.Sublist.map _ (List.filter_sublist rows)
  have hnd' : ((rows.filter (fun r => r.player_name == nome)).map
      (fun r => (r.match_id, r.player_name))).Nodup :=
    List.Nodup.sublist hsub hnd
  have hall : ∀ p ∈ (rows.filter (fun r => r.player_name == nome)).map
      (fun r => (r.match_id, r.player_name)), p.2 = nome := by
    intro p hp
    obtain ⟨r, hr, rfl⟩ := List.mem_map.mp hp
    simpa using (List.mem_filter.mp hr).2
  have hmids : ((rows.filter (fun r => r.player_name == nome)).map
      (fun r => r.match_id)).Nodup := by
    have hmm : (rows.filter (fun r => r.player_name == nome)).map (fun r => r.match_id) =
        ((rows.filter (fun r => r.player_name == nome)).map
          (fun r => (r.match_id, r.player_name))).map Prod.fst := by
      simp [List.map_map, Function.comp]
    rw [hmm]
    refine List.Nodup.map_on ?_ hnd'
    intro x hx y hy hxy
    exact Prod.ext hxy ((hall x hx).trans (hall y hy).symm)
  have h2 : gamesOf rows nome = (rows.filter (fun r => r.player_name == nome)).length := by
    unfold gamesOf
    rw [List.dedup_eq_self.mpr hmids, List.length_map]
  exact h2 ▸ h1

/-! Claim theorems. -/

/-- Claim C1 is false on the code: in the snapshot `[dX1, dX2, dY]` the deck
display name "X (Ana)" supplied by the first seat matches two records, yet
`recordMatch` succeeds instead of failing — the ambiguous display name is
silently resolved to the first matching record. -/
theorem c1_counterexample :
    ((enrichDecks [ana, bo] [dX1, dX2, dY]).filter
      (fun d => d.display_name == "X (Ana)")).length = 2 ∧
    (recordMatch "2026-01-05" "" entsAmb [ana, bo] [dX1, dX2, dY] true s0).1 =
      Except.ok 1 :=
  ⟨by decide, by rfl⟩

/-- Claim C1 amended: a participant entry whose playerName or deckDisplayName
matches zero records makes the call fail (the lookup raises and is surfaced as
a generic caught error, not a dedicated `UnresolvableReference`); an entry
whose name matches more than one record does not make the call fail — every
lookup with at least one match resolves silently to the first matching record
and the call succeeds. -/
theorem c1_amended (dateStr notes : String) (participantes : List Entry)
    (players : List Player) (decks : List Deck) (s : Store)
    (h2 : 2 ≤ (validEntries participantes).length) :
    ((∃ e ∈ validEntries participantes,
        resolvePlayerId players e.nome = none ∨
        resolveDeckId (enrichDecks players decks) e.deck_display = none) →
      (recordMatch dateStr notes participantes players decks true s).1 =
        Except.error RecErr.caughtException) ∧
    ((∀ e ∈ validEntries participantes,
        (resolvePlayerId players e.nome).isSome ∧
        (resolveDeckId (enrichDecks players decks) e.deck_display).isSome) →
      (recordMatch dateStr notes participantes players decks true s).1 =
        Except.ok s.nextMatchId) := by
  constructor
  · intro hex
    rw [recordMatch_eq_of_build_none dateStr notes participantes players decks true s h2
      (buildParticipants_eq_none _ _ _ _ hex)]
  · intro hall
    rw [recordMatch_eq_of_build_some dateStr notes participantes players decks true s _ h2
      (buildParticipants_eq_some _ _ _ _ hall)]
    simp

/-- Witness for the amended claim C1: the ambiguous submission succeeds, the
unresolvable one fails. -/
theorem c1_amended_witness :
    2 ≤ (validEntries entsAmb).length ∧
    (recordMatch "2026-01-05" "" entsAmb [ana, bo] [dX1, dX2, dY] true s0).1 =
      Except.ok 1 ∧
    2 ≤ (validEntries entsZero).length ∧
    (recordMatch "2026-01-05" "" entsZero [ana] [dX1] true s0).1 =
      Except.error RecErr.caughtException :=
  ⟨by decide,
   (c1_amended "2026-01-05" "" entsAmb [ana, bo] [dX1, dX2, dY] s0 (by decide)).2 (by decide),
   by decide,
   (c1_amended "2026-01-05" "" entsZero [ana] [dX1] s0 (by decide)).1 (by decide)⟩

/-- Claim C2 is false on the code: selecting Ana with Bo's deck "Y (Bo)"
inserts a participant row pairing `player_id` 1 (Ana) with `deck_id` 13, a
deck the snapshot records as owned by `player_id` 2 — the ownership invariant
is silently violated because the deck is resolved by display name alone. -/
theorem c2_counterexample :
    (recordMatch "2026-01-05" "" entsCross [ana, bo] [dX1, dY] true s0).2.participants =
      [⟨1, 1, 13, true, 0, 1⟩, ⟨1, 2, 11, false, 3, 0⟩] ∧
    [dX1, dY].filter (fun dk => dk.deck_id == 13) = [dY] ∧
    dY.player_id = 2 ∧ (2 : Nat) ≠ 1 :=
  ⟨by rfl, by rfl, rfl, by decide⟩

/-- Claim C2 amended: each inserted participant row pairs the `player_id`
looked up from the entry's playerName with the `deck_id` looked up
independently, by deckDisplayName alone, as the first matching deck record;
nothing checks that this deck belongs to the resolved player, so the
ownership invariant holds only when the user picked a deck of the selected
player. -/
theorem c2_amended (dateStr notes : String) (participantes : List Entry)
    (players : List Player) (decks : List Deck) (s : Store)
    (h2 : 2 ≤ (validEntries participantes).length)
    (hall : ∀ e ∈ validEntries participantes,
      (resolvePlayerId players e.nome).isSome ∧
      (resolveDeckId (enrichDecks players decks) e.deck_display).isSome) :
    (recordMatch dateStr notes participantes players decks true s).2.participants =
      s.participants ++ (validEntries participantes).map (fun e =>
        mkRow s.nextMatchId ((resolvePlayerId players e.nome).getD 0)
          ((resolveDeckId (enrichDecks players decks) e.deck_display).getD 0) e) := by
  rw [recordMatch_eq_of_build_some dateStr notes participantes players decks true s _ h2
    (buildParticipants_eq_some _ _ _ _ hall)]
  simp [insertParticipants, insertMatch]

/-- Witness for the amended claim C2 at the cross-paired submission. -/
theorem c2_amended_witness :
    2 ≤ (validEntries entsCross).length ∧
    (recordMatch "2026-01-05" "" entsCross [ana, bo] [dX1, dY] true s0).2.participants =
      s0.participants ++ (validEntries entsCross).map (fun e =>
        mkRow s0.nextMatchId ((resolvePlayerId [ana, bo] e.nome).getD 0)
          ((resolveDeckId (enrichDecks [ana, bo] [dX1, dY]) e.deck_display).getD 0) e) :=
  ⟨by decide,
   c2_amended "2026-01-05" "" entsCross [ana, bo] [dX1, dY] s0 (by decide) (by decide)⟩

/-- Claim C3: when fewer than two entries remain after discarding unfilled
seats, the call fails with the insufficient-participants error and the store
is left exactly as it was — no Match row and no Participant row is written. -/
theorem c3_insufficient (dateStr notes : String) (participantes : List Entry)
    (players : List Player) (decks : List Deck) (ok : Bool) (s : Store)
    (h : (validEntries participantes).length < 2) :
    recordMatch dateStr notes participantes players decks ok s =
      (Except.error RecErr.insufficientParticipants, s) := by
  simp [recordMatch, h]

/-- Witness for claim C3: a single filled seat is rejected without writes. -/
theorem c3_insufficient_witness :
    (validEntries entsOne).length < 2 ∧
    recordMatch "2026-01-05" "" entsOne [ana, bo] [dX1, dY] true s0 =
      (Except.error RecErr.insufficientParticipants, s0) :=
  ⟨by decide,
   c3_insufficient "2026-01-05" "" entsOne [ana, bo] [dX1, dY] true s0 (by decide)⟩

/-- Claim C6: when validation and name resolution succeed but the participants
batch insert fails, the call surfaces an error while the Match row just
inserted stays persisted, with no participant rows and no rollback. -/
theorem c6_partial_write (dateStr notes : String) (participantes : List Entry)
    (players : List Player) (decks : List Deck) (s : Store) (rows : List ParticipantRow)
    (h2 : 2 ≤ (validEntries participantes).length)
    (hb : buildParticipants players (enrichDecks players decks) s.nextMatchId
      (validEntries participantes) = some rows) :
    (recordMatch dateStr notes participantes players decks false s).1 =
      Except.error RecErr.caughtException ∧
    (recordMatch dateStr notes participantes players decks false s).2.matchRows =
      s.matchRows ++ [⟨s.nextMatchId, dateStr, notes⟩] ∧
    (recordMatch dateStr notes participantes players decks false s).2.participants =
      s.participants := by
  rw [recordMatch_eq_of_build_some dateStr notes participantes players decks false s rows h2 hb]
  simp [insertMatch]

/-- Witness for claim C6: a valid two-seat submission whose batch insert
fails leaves the orphaned Match row behind. -/
theorem c6_partial_write_witness :
    2 ≤ (validEntries entsCross).length ∧
    buildParticipants [ana, bo] (enrichDecks [ana, bo] [dX1, dY]) s0.nextMatchId
      (validEntries entsCross) = some [⟨1, 1, 13, true, 0, 1⟩, ⟨1, 2, 11, false, 3, 0⟩] ∧
    ((recordMatch "2026-01-05" "" entsCross [ana, bo] [dX1, dY] false s0).1 =
      Except.error RecErr.caughtException ∧
    (recordMatch "2026-01-05" "" entsCross [ana, bo] [dX1, dY] false s0).2.matchRows =
      s0.matchRows ++ [⟨s0.nextMatchId, "2026-01-05", ""⟩] ∧
    (recordMatch "2026-01-05" "" entsCross [ana, bo] [dX1, dY] false s0).2.participants =
      s0.participants) :=
  ⟨by decide, by rfl,
   c6_partial_write "2026-01-05" "" entsCross [ana, bo] [dX1, dY] s0
     [⟨1, 1, 13, true, 0, 1⟩, ⟨1, 2, 11, false, 3, 0⟩] (by decide) (by rfl)⟩

/-- Claim C8: every participant row a successful call inserts carries
`is_winner` copied from its entry and `rank = 1` when that entry was marked
winner, `rank = 0` otherwise — the placeholder rule, not a finishing
position. -/
theorem c8_rank_rule (dateStr notes : String) (participantes : List Entry)
    (players : List Player) (decks : List Deck) (s : Store) (mid : Nat)
    (h : (recordMatch dateStr notes participantes players decks true s).1 = Except.ok mid) :
    ∃ rows : List ParticipantRow,
      (recordMatch dateStr notes participantes players decks true s).2.participants =
        s.participants ++ rows ∧
      rows.length = (validEntries participantes).length ∧
      ∀ i (hi : i < rows.length) (hi' : i < (validEntries participantes).length),
        (rows.get ⟨i, hi⟩).is_winner = ((validEntries participantes).get ⟨i, hi'⟩).venceu ∧
        (rows.get ⟨i, hi⟩).rank =
          (if ((validEntries participantes).get ⟨i, hi'⟩).venceu then 1 else 0) := by
  by_cases h2 : (validEntries participantes).length < 2
  · simp [recordMatch, h2] at h
  · have h2' : 2 ≤ (validEntries participantes).length := not_lt.mp h2
    cases hb : buildParticipants players (enrichDecks players decks) s.nextMatchId
        (validEntries participantes) with
    | none =>
      rw [recordMatch_eq_of_build_none dateStr notes participantes players decks true s h2' hb]
        at h
      simp at h
    | some rows =>
      obtain ⟨-, hrows⟩ := buildParticipants_inv _ _ _ _ _ hb
      refine ⟨rows, ?_, ?_, ?_⟩
      · rw [recordMatch_eq_of_build_some dateStr notes participantes players decks true s rows
          h2' hb]
        simp [insertParticipants, insertMatch]
      · simp [hrows]
      · intro i hi hi'
        subst hrows
        simp [mkRow]

/-- Witness for claim C8 at the cross-paired submission. -/
theorem c8_rank_rule_witness :
    (recordMatch "2026-01-05" "" entsCross [ana, bo] [dX1, dY] true s0).1 = Except.ok 1 ∧
    (∃ rows : List ParticipantRow,
      (recordMatch "2026-01-05" "" entsCross [ana, bo] [dX1, dY] true s0).2.participants =
        s0.participants ++ rows ∧
      rows.length = (validEntries entsCross).length ∧
      ∀ i (hi : i < rows.length) (hi' : i < (validEntries entsCross).length),
        (rows.get ⟨i, hi⟩).is_winner = ((validEntries entsCross).get ⟨i, hi'⟩).venceu ∧
        (rows.get ⟨i, hi⟩).rank =
          (if ((validEntries entsCross).get ⟨i, hi'⟩).venceu then 1 else 0)) :=
  ⟨by rfl,
   c8_rank_rule "2026-01-05" "" entsCross [ana, bo] [dX1, dY] s0 1 (by rfl)⟩

/-- Claim C4 is false as stated: on the reachable history `doubledRows`, where
Ana occupies two seats per match, the ranking contains Ana with
`win_rate = 200`, violating the claimed bound `win_rate ≤ 100`. -/
theorem c4_counterexample :
    winRateRanking doubledRows = [statFor doubledRows "Ana"] ∧
    (statFor doubledRows "Ana").win_rate = 200 ∧
    (100 : Rat) < (statFor doubledRows "Ana").win_rate := by
  have hw : winsOf doubledRows "Ana" = 10 := by decide
  have hg : gamesOf doubledRows "Ana" = 5 := by decide
  have h2 : (statFor doubledRows "Ana").win_rate = 200 := by
    simp [statFor, hw, hg]
    norm_num
  exact ⟨by rfl, h2, by rw [h2]; norm_num⟩

/-- Claim C4 amended: the ranking groups rows by player, computes games as
distinct matches and wins as winner rows, excludes players with fewer than 5
games, is sorted by win rate descending and holds at most 10 entries;
`0 ≤ win_rate` always, but `win_rate ≤ 100` only when no player occupies two
seats of the same match (one row per `(match_id, player_name)` pair) — with
duplicate seats the rate can exceed 100. -/
theorem c4_amended (rows : List HistoryRow)
    (hnd : (rows.map (fun r => (r.match_id, r.player_name))).Nodup) :
    (∀ st ∈ winRateRanking rows,
      st.jogos = gamesOf rows st.player_name ∧
      st.vitorias = winsOf rows st.player_name ∧
      st.win_rate = (st.vitorias : Rat) / (st.jogos : Rat) * 100 ∧
      5 ≤ st.jogos ∧ (0 : Rat) ≤ st.win_rate ∧ st.win_rate ≤ 100) ∧
    List.Sorted wrGe (winRateRanking rows) ∧
    (winRateRanking rows).length ≤ 10 := by
  refine ⟨?_, ?_, ?_⟩
  · intro st hst
    have h1 : st ∈ List.insertionSort wrGe
        (((groupKeys rows).map (statFor rows)).filter (fun x => 5 ≤ x.jogos)) :=
      List.mem_of_mem_take hst
    have h2 : st ∈ ((groupKeys rows).map (statFor rows)).filter (fun x => 5 ≤ x.jogos) :=
      (List.mem_insertionSort wrGe).mp h1
    obtain ⟨hmem, hdec⟩ := List.mem_filter.mp h2
    have hge : 5 ≤ st.jogos := of_decide_eq_true hdec
    obtain ⟨nome, hn, rfl⟩ := List.mem_map.mp hmem
    have hwg : winsOf rows nome ≤ gamesOf rows nome := winsOf_le_gamesOf rows nome hnd
    have hg5 : 5 ≤ gamesOf rows nome := hge
    have hgpos : (0 : Rat) < (gamesOf rows nome : Rat) := by
      exact_mod_cast Nat.lt_of_lt_of_le (by norm_num) hg5
    refine ⟨rfl, rfl, rfl, hge, ?_, ?_⟩
    · exact mul_nonneg (div_nonneg (Nat.cast_nonneg _) (Nat.cast_nonneg _)) (by norm_num)
    · calc (winsOf rows nome : Rat) / (gamesOf rows nome : Rat) * 100
          ≤ 1 * 100 := by
            refine mul_le_mul_of_nonneg_right ?_ (by norm_num)
            exact (div_le_one hgpos).mpr (by exact_mod_cast hwg)
        _ = 100 := one_mul _
  · exact List.Pairwise.sublist (List.take_sublist _ _) (List.sorted_insertionSort wrGe _)
  · exact List.length_take_le _ _

/-- Witness for the amended claim C4: the specification's worked scenario —
five matches between Ana and Bo of which Ana wins three — has one row per
player per match, and the theorem applies to it. -/
theorem c4_amended_witness :
    (scenarioRows.map (fun r => (r.match_id, r.player_name))).Nodup ∧
    ((∀ st ∈ winRateRanking scenarioRows,
      st.jogos = gamesOf scenarioRows st.player_name ∧
      st.vitorias = winsOf scenarioRows st.player_name ∧
      st.win_rate = (st.vitorias : Rat) / (st.jogos : Rat) * 100 ∧
      5 ≤ st.jogos ∧ (0 : Rat) ≤ st.win_rate ∧ st.win_rate ≤ 100) ∧
    List.Sorted wrGe (winRateRanking scenarioRows) ∧
    (winRateRanking scenarioRows).length ≤ 10) :=
  ⟨by decide, c4_amended scenarioRows (by decide)⟩

/-- Claim C5 is false on the code: a row with an unparseable date is not
excluded individually — under a specific-year selection its presence makes
the whole filter (and with it the aggregation) fail, and under "Todos" the
row is retained. -/
theorem c5_counterexample :
    parseYear rowBad.date = none ∧
    parseYear rowGood.date = some 2026 ∧
    filterByYear [rowGood, rowBad] (Period.year 2026) = none ∧
    filterByYear [rowGood, rowBad] Period.all = some [rowGood, rowBad] :=
  ⟨by decide, by decide, by decide, by decide⟩

/-- Claim C5 amended: under "Todos" every row is retained unconditionally;
under a selected year, the filter succeeds exactly when every row's date
parses, and then retains exactly the rows whose calendar year equals the
selection — a row with an unparseable date fails the whole filter rather
than being excluded on its own. -/
theorem c5_amended (rows : List HistoryRow) (y : Nat) :
    filterByYear rows Period.all = some rows ∧
    (∀ out, filterByYear rows (Period.year y) = some out →
      ∀ r, r ∈ out ↔ (r ∈ rows ∧ parseYear r.date = some y)) ∧
    ((filterByYear rows (Period.year y)).isSome ↔
      ∀ r ∈ rows, (parseYear r.date).isSome) := by
  refine ⟨rfl, ?_, ?_⟩
  · intro out hout r
    rw [filterByYear_year] at hout
    by_cases hall : rows.all (fun r => (parseYear r.date).isSome) = true
    · rw [if_pos hall] at hout
      obtain rfl := (Option.some_inj.mp hout).symm
      simp [List.mem_filter]
    · rw [if_neg hall] at hout
      exact absurd hout (by simp)
  · rw [filterByYear_year]
    by_cases hall : rows.all (fun r => (parseYear r.date).isSome) = true
    · rw [if_pos hall]
      simp only [List.all_eq_true] at hall
      simpa using hall
    · rw [if_neg hall]
      simp only [List.all_eq_true] at hall
      simpa using hall

/-- Witness for the amended claim C5: a successful single-row filter retains
exactly the 2026 row. -/
theorem c5_amended_witness :
    filterByYear [rowGood] (Period.year 2026) = some [rowGood] ∧
    (∀ r, r ∈ [rowGood] ↔ (r ∈ [rowGood] ∧ parseYear r.date = some 2026)) :=
  ⟨by decide, (c5_amended [rowGood] 2026).2.1 [rowGood] (by decide)⟩

/-- Claim C7: the colour-frequency grouping maps the empty colour identity to
the sentinel colourless category (the source literal is the Portuguese
"Incolor"); each category's count is the number of rows normalising to it, a
category appears exactly when some row normalises to it, and the counts over
all categories (before the top-10 cut) sum to the number of rows. -/
theorem c7_color_counts (rows : List HistoryRow) :
    ((colorCounts rows).map Prod.snd).sum = rows.length ∧
    (∀ p ∈ colorCounts rows,
      p.2 = (rows.filter (fun r => normColor r.color_identity == p.1)).length) ∧
    (∀ c, (∃ n, (c, n) ∈ colorCounts rows) ↔ ∃ r ∈ rows, normColor r.color_identity = c) ∧
    normColor "" = "Incolor" := by
  have hperm : List.Perm (colorCounts rows)
      ((rows.map (fun r => normColor r.color_identity)).dedup.map
        (fun c => (c, (rows.map (fun r => normColor r.color_identity)).count c))) :=
    List.perm_insertionSort _ _
  refine ⟨?_, ?_, ?_, rfl⟩
  · calc ((colorCounts rows).map Prod.snd).sum
        = (((rows.map (fun r => normColor r.color_identity)).dedup.map
            (fun c => (c, (rows.map (fun r => normColor r.color_identity)).count c))).map
            Prod.snd).sum :=
          (hperm.map Prod.snd).sum_eq
      _ = ((rows.map (fun r => normColor r.color_identity)).dedup.map
            (fun c => (rows.map (fun r => normColor r.color_identity)).count c)).sum := by
          rw [List.map_map]
          exact rfl
      _ = (rows.map (fun r => normColor r.color_identity)).length :=
          List.sum_map_count_dedup_eq_length _
      _ = rows.length := List.length_map rows _
  · intro p hp
    obtain ⟨c, hc, rfl⟩ := List.mem_map.mp (hperm.mem_iff.mp hp)
    show (rows.map (fun r => normColor r.color_identity)).count c =
      (rows.filter (fun r => normColor r.color_identity == c)).length
    rw [List.count_eq_countP, List.countP_map, List.countP_eq_length_filter]
    rfl
  · intro c
    constructor
    · rintro ⟨n, hn⟩
      obtain ⟨c', hc', heq⟩ := List.mem_map.mp (hperm.mem_iff.mp hn)
      obtain rfl : c' = c := congrArg Prod.fst heq
      have := List.mem_dedup.mp hc'
      obtain ⟨r, hr, hr'⟩ := List.mem_map.mp this
      exact ⟨r, hr, hr'⟩
    · rintro ⟨r, hr, hc⟩
      refine ⟨(rows.map (fun r => normColor r.color_identity)).count c, ?_⟩
      refine hperm.mem_iff.mpr (List.mem_map.mpr ⟨c, ?_, rfl⟩)
      exact List.mem_dedup.mpr (List.mem_map.mpr ⟨r, hr, hc⟩)

/-- Claim C9: the win-rate ranking is deterministic — it is a pure function
of the filtered collection, so equal inputs produce identical output,
including the relative order of tied players. -/
theorem c9_deterministic (rows1 rows2 : List HistoryRow) (h : rows1 = rows2) :
    winRateRanking rows1 = winRateRanking rows2 := by
  rw [h]

/-- Witness for claim C9 on two syntactically different but equal inputs. -/
theorem c9_deterministic_witness :
    scenarioRows ++ [] = scenarioRows ∧
    winRateRanking (scenarioRows ++ []) = winRateRanking scenarioRows :=
  ⟨List.append_nil _, c9_deterministic _ _ (List.append_nil _)⟩

/-- Claim C10: no uniqueness check exists across seats: supplying the same
player and deck in two filled seats succeeds and inserts one row per seat,
duplicating `player_id` and `deck_id` within the match. -/
theorem c10_duplicate_seats :
    (recordMatch "2026-01-05" "" entsDup [ana] [dX1] true s0).1 = Except.ok 1 ∧
    (recordMatch "2026-01-05" "" entsDup [ana] [dX1] true s0).2.participants =
      [⟨1, 1, 11, true, 0, 1⟩, ⟨1, 1, 11, false, 2, 0⟩] :=
  ⟨by rfl, by rfl⟩

end MtgStats
